import Mathlib

/-!
Verification of the ASHRAE Guideline-36 fault-detection rules
(`fc2_3.py` and `air_handling_unit/faults/fault_condition_four.py`)
against their natural-language specification.

Floating-point sensor values are modelled as `Option ℚ`: `none` plays the
role of IEEE NaN.  The arithmetic operations used by the rules (`+`, `-`,
`np.minimum`, `np.maximum`) all propagate NaN, and the comparisons (`<`, `>`)
evaluate to `False` whenever either operand is NaN, exactly as in numpy.
-/

namespace AhuFdd

/-- Float addition with NaN propagation (`none` = NaN). -/
def fadd (a b : Option ℚ) : Option ℚ :=
  match a, b with
  | some x, some y => some (x + y)
  | _, _ => none

/-- Float subtraction with NaN propagation. -/
def fsub (a b : Option ℚ) : Option ℚ :=
  match a, b with
  | some x, some y => some (x - y)
  | _, _ => none

/-- `np.minimum`: propagates NaN. -/
def fmin (a b : Option ℚ) : Option ℚ :=
  match a, b with
  | some x, some y => some (min x y)
  | _, _ => none

/-- `np.maximum`: propagates NaN. -/
def fmax (a b : Option ℚ) : Option ℚ :=
  match a, b with
  | some x, some y => some (max x y)
  | _, _ => none

/-- Float `<`: false when either side is NaN, as in numpy. -/
def flt (a b : Option ℚ) : Bool :=
  match a, b with
  | some x, some y => decide (x < y)
  | _, _ => false

/-- Float `>`: false when either side is NaN, as in numpy. -/
def fgt (a b : Option ℚ) : Bool :=
  match a, b with
  | some x, some y => decide (y < x)
  | _, _ => false

@[simp] lemma fadd_none_left (b : Option ℚ) : fadd none b = none := by cases b <;> rfl
@[simp] lemma fadd_none_right (a : Option ℚ) : fadd a none = none := by cases a <;> rfl
@[simp] lemma fsub_none_left (b : Option ℚ) : fsub none b = none := by cases b <;> rfl
@[simp] lemma fsub_none_right (a : Option ℚ) : fsub a none = none := by cases a <;> rfl
@[simp] lemma fmin_none_left (b : Option ℚ) : fmin none b = none := by cases b <;> rfl
@[simp] lemma fmin_none_right (a : Option ℚ) : fmin a none = none := by cases a <;> rfl
@[simp] lemma fmax_none_left (b : Option ℚ) : fmax none b = none := by cases b <;> rfl
@[simp] lemma fmax_none_right (a : Option ℚ) : fmax a none = none := by cases a <;> rfl
@[simp] lemma flt_none_left (b : Option ℚ) : flt none b = false := by cases b <;> rfl
@[simp] lemma flt_none_right (a : Option ℚ) : flt a none = false := by cases a <;> rfl
@[simp] lemma fgt_none_left (b : Option ℚ) : fgt none b = false := by cases b <;> rfl
@[simp] lemma fgt_none_right (a : Option ℚ) : fgt a none = false := by cases a <;> rfl
@[simp] lemma fadd_some (x y : ℚ) : fadd (some x) (some y) = some (x + y) := rfl
@[simp] lemma fsub_some (x y : ℚ) : fsub (some x) (some y) = some (x - y) := rfl
@[simp] lemma fmin_some (x y : ℚ) : fmin (some x) (some y) = some (min x y) := rfl
@[simp] lemma fmax_some (x y : ℚ) : fmax (some x) (some y) = some (max x y) := rfl
@[simp] lemma flt_some (x y : ℚ) : flt (some x) (some y) = decide (x < y) := rfl
@[simp] lemma fgt_some (x y : ℚ) : fgt (some x) (some y) = decide (y < x) := rfl

/-- One row of the dataframe used by `fc2_3.py`: the three temperature
columns `mat`, `rat`, `oat` and the three constant threshold columns the
script appends before evaluating the two predicates. -/
structure Fc23Row where
  mat : Option ℚ
  rat : Option ℚ
  oat : Option ℚ
  mix_degf_err_thres : Option ℚ
  return_degf_err_thres : Option ℚ
  outdoor_degf_err_thres : Option ℚ
deriving DecidableEq

/-- `fault_condition_two_` from `fc2_3.py`:
`(df.mat + df.mix_degf_err_thres) < np.minimum(df.rat - df.return_degf_err_thres, df.oat - df.outdoor_degf_err_thres)`. -/
def fault_condition_two_ (df : Fc23Row) : Bool :=
  flt (fadd df.mat df.mix_degf_err_thres)
    (fmin (fsub df.rat df.return_degf_err_thres) (fsub df.oat df.outdoor_degf_err_thres))

/-- `fault_condition_three_` from `fc2_3.py`:
`(df.mat - df.mix_degf_err_thres) > np.maximum(df.rat + df.return_degf_err_thres, df.oat + df.outdoor_degf_err_thres)`. -/
def fault_condition_three_ (df : Fc23Row) : Bool :=
  fgt (fsub df.mat df.mix_degf_err_thres)
    (fmax (fadd df.rat df.return_degf_err_thres) (fadd df.oat df.outdoor_degf_err_thres))

/-- Row of end-to-end scenario A of the spec (thresholds mix=5, return=2, outdoor=5). -/
def scenarioA : Fc23Row :=
  { mat := some 85, rat := some 72, oat := some 55
    mix_degf_err_thres := some 5, return_degf_err_thres := some 2
    outdoor_degf_err_thres := some 5 }

/-- Row of end-to-end scenario B of the spec. -/
def scenarioB : Fc23Row :=
  { mat := some 60, rat := some 72, oat := some 45
    mix_degf_err_thres := some 5, return_degf_err_thres := some 2
    outdoor_degf_err_thres := some 5 }

/-!
### Model of `FaultConditionFour` (`air_handling_unit/faults/fault_condition_four.py`)

A dataframe row carries the four analog signal columns, its timestamp
collapsed to the hour bucket `resample("h")` would assign it to, and the
values of any further columns of the table (`extras`, one entry per extra
column).  All values are finite here: `df.astype(int)` raises on NaN, so a
table reaching the counting step has numeric values throughout.
-/

/-- One row of the input table passed to `FaultConditionFour.apply`. -/
structure Row where
  hour : ℕ
  economizer_sig : ℚ
  heating_sig : ℚ
  cooling_sig : ℚ
  supply_vfd_speed : ℚ
  extras : List ℚ
deriving DecidableEq

/-- Configuration of `FaultConditionFour` (`set_attributes(dict_)`), with
`troubleshoot_mode` left `False` as in the default. -/
structure FC4Config where
  delta_os_max : ℚ
  ahu_min_oa_dpr : ℚ
deriving DecidableEq

/-- Input table: rows plus the number of extra (non-signal) columns. -/
structure DataFrame where
  numExtras : ℕ
  rows : List Row
deriving DecidableEq

/-- `df["heating_mode"]`: heating pid modulating, OA damper at min. -/
def heating_mode (cfg : FC4Config) (r : Row) : Bool :=
  decide (0 < r.heating_sig) && decide (r.cooling_sig = 0)
    && decide (0 < r.supply_vfd_speed) && decide (r.economizer_sig = cfg.ahu_min_oa_dpr)

/-- `df["econ_only_cooling_mode"]`: OA damper modulating, heating and cooling zero. -/
def econ_only_cooling_mode (cfg : FC4Config) (r : Row) : Bool :=
  decide (r.heating_sig = 0) && decide (r.cooling_sig = 0)
    && decide (0 < r.supply_vfd_speed) && decide (cfg.ahu_min_oa_dpr < r.economizer_sig)

/-- `df["econ_plus_mech_cooling_mode"]`: OA damper modulating, cooling modulating. -/
def econ_plus_mech_cooling_mode (cfg : FC4Config) (r : Row) : Bool :=
  decide (r.heating_sig = 0) && decide (0 < r.cooling_sig)
    && decide (0 < r.supply_vfd_speed) && decide (cfg.ahu_min_oa_dpr < r.economizer_sig)

/-- `df["mech_cooling_only_mode"]`: OA damper at min, cooling modulating. -/
def mech_cooling_only_mode (cfg : FC4Config) (r : Row) : Bool :=
  decide (r.heating_sig = 0) && decide (0 < r.cooling_sig)
    && decide (0 < r.supply_vfd_speed) && decide (r.economizer_sig = cfg.ahu_min_oa_dpr)

/-- `astype(int)` on a numeric value: truncation toward zero. -/
def truncInt (q : ℚ) : ℤ := if q < 0 then -(⌊-q⌋) else ⌊q⌋

/-- `astype(int)` on a boolean mode column. -/
def boolInt (b : Bool) : ℤ := if b then 1 else 0

/-- The body of `resample("h").apply(lambda x: (x.eq(1) & x.shift().ne(1)).sum())`
on one in-bucket column series, threaded with the previous in-bucket value
(`none` for the first row: `shift()` yields NaN there and `NaN.ne(1)` is true). -/
def countEdgesFrom : Option ℤ → List ℤ → ℕ
  | _, [] => 0
  | prev, x :: xs =>
    (if x = 1 ∧ prev ≠ some 1 then 1 else 0) + countEdgesFrom (some x) xs

/-- Rising-edge count of one column within one hourly bucket. -/
def countEdges (xs : List ℤ) : ℕ := countEdgesFrom none xs

/-- The hour labels of the occupied hourly buckets, in order (the index is
non-decreasing per the data-model invariant, so duplicates are consecutive). -/
def hoursOf (rows : List Row) : List ℕ := (rows.map Row.hour).dedup

/-- The rows `resample("h")` assigns to bucket `h`. -/
def bucket (rows : List Row) (h : ℕ) : List Row := rows.filter (fun r => r.hour == h)

/-- Value of the `j`-th extra column in a row. -/
def extraVal (j : ℕ) (r : Row) : ℚ := r.extras.getD j 0

/-- One row of the hourly table returned by `apply`: a transition count per
column of the integer-cast table, and the `fc4_flag` column assigned last. -/
structure HourlyRow where
  hour : ℕ
  economizer_sig_count : ℕ
  heating_sig_count : ℕ
  cooling_sig_count : ℕ
  supply_vfd_speed_count : ℕ
  extras_counts : List ℕ
  heating_mode_count : ℕ
  econ_only_cooling_mode_count : ℕ
  econ_plus_mech_cooling_mode_count : ℕ
  mech_cooling_only_mode_count : ℕ
  fc4_flag : ℕ
deriving DecidableEq

/-- Every transition-count column of an hourly row, in table order
(`df[df.columns]` at the moment `fc4_flag` is assigned: the original
columns, then the four appended mode columns; `fc4_flag` itself is not
yet a column there). -/
def allCounts (hr : HourlyRow) : List ℕ :=
  hr.economizer_sig_count :: hr.heating_sig_count :: hr.cooling_sig_count ::
    hr.supply_vfd_speed_count ::
      (hr.extras_counts ++
        [hr.heating_mode_count, hr.econ_only_cooling_mode_count,
         hr.econ_plus_mech_cooling_mode_count, hr.mech_cooling_only_mode_count])

/-- The per-bucket transition counts of every column for bucket `h`. -/
def hourlyCounts (cfg : FC4Config) (df : DataFrame) (h : ℕ) : HourlyRow :=
  let b := bucket df.rows h
  { hour := h
    economizer_sig_count := countEdges (b.map (fun r => truncInt r.economizer_sig))
    heating_sig_count := countEdges (b.map (fun r => truncInt r.heating_sig))
    cooling_sig_count := countEdges (b.map (fun r => truncInt r.cooling_sig))
    supply_vfd_speed_count := countEdges (b.map (fun r => truncInt r.supply_vfd_speed))
    extras_counts := (List.range df.numExtras).map
      (fun j => countEdges (b.map (fun r => truncInt (extraVal j r))))
    heating_mode_count := countEdges (b.map (fun r => boolInt (heating_mode cfg r)))
    econ_only_cooling_mode_count :=
      countEdges (b.map (fun r => boolInt (econ_only_cooling_mode cfg r)))
    econ_plus_mech_cooling_mode_count :=
      countEdges (b.map (fun r => boolInt (econ_plus_mech_cooling_mode cfg r)))
    mech_cooling_only_mode_count :=
      countEdges (b.map (fun r => boolInt (mech_cooling_only_mode cfg r)))
    fc4_flag := 0 }

/-- `df["fc4_flag"] = df[df.columns].gt(self.delta_os_max).any(axis=1).astype(int)`. -/
def setFlag (cfg : FC4Config) (hr : HourlyRow) : HourlyRow :=
  { hr with fc4_flag :=
      if (allCounts hr).any (fun c => decide (cfg.delta_os_max < (c : ℚ))) then 1 else 0 }

/-- The hourly table computed by the tail of `apply`: cast to int, resample
to hourly buckets, count in-bucket rising edges per column, derive `fc4_flag`. -/
def applyHourly (cfg : FC4Config) (df : DataFrame) : List HourlyRow :=
  (hoursOf df.rows).map (fun h => setFlag cfg (hourlyCounts cfg df h))

/-- Errors of the signal validator (§7 of the spec). -/
inductive SignalError where
  | invalidSignalType
  | invalidSignalRange
deriving DecidableEq

/-- Whether every value of an analog column is a fraction in `[0, 1]`. -/
def analogOk (vals : List ℚ) : Bool :=
  vals.all (fun v => decide (0 ≤ v) && decide (v ≤ 1))

/-- Modelled from the spec: `check_analog_pct` is inherited from
`FaultCondition` (`faults/fault_condition.py`), a file absent from the
sources.  Per §4.1 / §7 it is a pure check that fails with
`InvalidSignalType` when a value is not a floating-point fraction and with
`InvalidSignalRange` when a value lies outside `[0.0, 1.0]`.  In this
ℚ-valued model every value is already a fraction, so only the range check
can fire. -/
def check_analog_pct (vals : List ℚ) : Except SignalError Unit :=
  if analogOk vals then Except.ok () else Except.error SignalError.invalidSignalRange

/-- A row of the caller's table after `apply` returned: the original row
with the four boolean mode columns appended in place. -/
structure RowM where
  base : Row
  heating_mode : Bool
  econ_only_cooling_mode : Bool
  econ_plus_mech_cooling_mode : Bool
  mech_cooling_only_mode : Bool
deriving DecidableEq

/-- The in-place effect of the four `df[...] = ...` assignments on one row. -/
def addModes (cfg : FC4Config) (r : Row) : RowM :=
  { base := r
    heating_mode := heating_mode cfg r
    econ_only_cooling_mode := econ_only_cooling_mode cfg r
    econ_plus_mech_cooling_mode := econ_plus_mech_cooling_mode cfg r
    mech_cooling_only_mode := mech_cooling_only_mode cfg r }

/-- `FaultConditionFour.apply` with `troubleshoot_mode = False`: validate the
four analog columns, then append the mode columns to the caller's table and
build the hourly table.  The pair returned is (caller's table as it stands
after the call, hourly result table); a raised validator error is `Except.error`
and leaves the caller's table untouched. -/
def FaultConditionFour.apply (cfg : FC4Config) (df : DataFrame) :
    Except SignalError (List RowM × List HourlyRow) :=
  match check_analog_pct (df.rows.map Row.economizer_sig) with
  | Except.error e => Except.error e
  | Except.ok _ =>
    match check_analog_pct (df.rows.map Row.heating_sig) with
    | Except.error e => Except.error e
    | Except.ok _ =>
      match check_analog_pct (df.rows.map Row.cooling_sig) with
      | Except.error e => Except.error e
      | Except.ok _ =>
        match check_analog_pct (df.rows.map Row.supply_vfd_speed) with
        | Except.error e => Except.error e
        | Except.ok _ =>
          Except.ok (df.rows.map (addModes cfg), applyHourly cfg df)

/-!
### Specification-side definitions

`specSeriesEdgeCount` formalises the spec's description of the hunting
count (§4.4 step 2) for comparison against the code's in-bucket count;
`bucketEdgeSpec` is a positional reformulation of in-bucket rising edges.
-/

/-- The per-bucket count the spec describes (§4.4 step 2): the number of
rows carrying hour label `h` whose value is 1 and whose immediately
preceding row in the ORIGINAL, unresampled series had a value other
than 1 (the very first row of the series has no predecessor and counts
when its value is 1). -/
def specSeriesEdgeCountFrom : Option ℤ → ℕ → List (ℕ × ℤ) → ℕ
  | _, _, [] => 0
  | prev, h, (hr, x) :: rest =>
    (if hr = h ∧ x = 1 ∧ prev ≠ some 1 then 1 else 0)
      + specSeriesEdgeCountFrom (some x) h rest

/-- Rising-edge count for hour `h` over the whole (hour-labelled) series. -/
def specSeriesEdgeCount (series : List (ℕ × ℤ)) (h : ℕ) : ℕ :=
  specSeriesEdgeCountFrom none h series

/-- In-bucket rising edges, stated positionally: pair every element of the
bucket with its predecessor inside the bucket (`none` for the first row)
and count the pairs whose value is 1 and whose predecessor is not 1. -/
def bucketEdgeSpec (xs : List ℤ) : ℕ :=
  ((xs.zip ((none : Option ℤ) :: xs.map some)).filter
    (fun p => decide (p.1 = 1) && !(p.2 == some 1))).length

/-!
### Concrete inputs used by counterexamples and witnesses
-/

/-- Configuration with `delta_os_max = 2` and `ahu_min_oa_dpr = 0.2`. -/
def cfgA : FC4Config := { delta_os_max := 2, ahu_min_oa_dpr := mkRat 1 5 }

/-- A row in heating mode: damper at minimum, heating valve modulating,
no cooling, fan running. -/
def rowHeat (h : ℕ) : Row :=
  { hour := h, economizer_sig := mkRat 1 5, heating_sig := mkRat 1 2, cooling_sig := 0
    supply_vfd_speed := mkRat 1 2, extras := [] }

/-- A row in economizer-only cooling mode: damper above minimum, heating
and cooling valves closed, fan running. -/
def rowEcon (h : ℕ) : Row :=
  { hour := h, economizer_sig := mkRat 1 2, heating_sig := 0, cooling_sig := 0
    supply_vfd_speed := mkRat 1 2, extras := [] }

/-- A fan-off row (no mode can be active). -/
def rowFanOff : Row :=
  { hour := 0, economizer_sig := mkRat 1 5, heating_sig := mkRat 1 2, cooling_sig := 0
    supply_vfd_speed := 0, extras := [] }

/-- A fan-off row whose `heating_sig` column alternates: `x` is 0 or 1. -/
def rowPulse (x : ℚ) : Row :=
  { hour := 0, economizer_sig := mkRat 1 5, heating_sig := x, cooling_sig := 0
    supply_vfd_speed := 0, extras := [] }

/-- One hour in which the raw `heating_sig` column alternates 1,0,1,0,1,0
while the fan is off, so every mode indicator is false throughout. -/
def dfPulse : DataFrame :=
  { numExtras := 0
    rows := [rowPulse 1, rowPulse 0, rowPulse 1, rowPulse 0, rowPulse 1, rowPulse 0] }

/-- Two consecutive hours, one heating-mode row each: the unit stays in
heating mode across the hour boundary. -/
def dfStay : DataFrame := { numExtras := 0, rows := [rowHeat 0, rowHeat 1] }

/-- One hour alternating heating / economizer-only every row (three
alternations into each of the two modes). -/
def dfAlt : DataFrame :=
  { numExtras := 0
    rows := [rowHeat 0, rowEcon 0, rowHeat 0, rowEcon 0, rowHeat 0, rowEcon 0] }

/-- A table whose `heating_sig` column holds the out-of-range value 1.5. -/
def dfBadHeat : DataFrame :=
  { numExtras := 0
    rows := [{ hour := 0, economizer_sig := mkRat 1 5, heating_sig := mkRat 3 2, cooling_sig := 0
               supply_vfd_speed := mkRat 1 2, extras := [] }] }

/-!
### Theorems about `fc2_3.py`
-/

/-- C5: the FC2 and FC3 comparisons are strict.  A row whose mixed-air
temperature sits exactly at the threshold-adjusted bound — for FC3,
`mat - mix_tol = max (rat + ret_tol) (oat + out_tol)`; dually for FC2 with
the minimum — does not flag, while exceeding the bound by any positive
`ε` does flag. -/
theorem fc23_strict_inequality_boundary (rat oat mx rt ot ε : ℚ) (hε : 0 < ε) :
    fault_condition_three_
        { mat := some (mx + max (rat + rt) (oat + ot)), rat := some rat, oat := some oat
          mix_degf_err_thres := some mx, return_degf_err_thres := some rt
          outdoor_degf_err_thres := some ot } = false
    ∧ fault_condition_three_
        { mat := some (mx + max (rat + rt) (oat + ot) + ε), rat := some rat, oat := some oat
          mix_degf_err_thres := some mx, return_degf_err_thres := some rt
          outdoor_degf_err_thres := some ot } = true
    ∧ fault_condition_two_
        { mat := some (min (rat - rt) (oat - ot) - mx), rat := some rat, oat := some oat
          mix_degf_err_thres := some mx, return_degf_err_thres := some rt
          outdoor_degf_err_thres := some ot } = false
    ∧ fault_condition_two_
        { mat := some (min (rat - rt) (oat - ot) - mx - ε), rat := some rat, oat := some oat
          mix_degf_err_thres := some mx, return_degf_err_thres := some rt
          outdoor_degf_err_thres := some ot } = true := by
  refine ⟨?_, ?_, ?_, ?_⟩ <;>
    simp only [fault_condition_two_, fault_condition_three_, fadd_some, fsub_some,
      fmin_some, fmax_some, flt_some, fgt_some, decide_eq_false_iff_not, decide_eq_true_eq,
      not_lt]
  · linarith
  · linarith
  · linarith
  · linarith

/-- C5 witness: instantiation at `rat = 72, oat = 55, mx = 5, rt = 2, ot = 5,
ε = 1`. -/
theorem fc23_strict_inequality_boundary_witness :
    fault_condition_three_
        { mat := some (5 + max ((72 : ℚ) + 2) (55 + 5)), rat := some 72, oat := some 55
          mix_degf_err_thres := some 5, return_degf_err_thres := some 2
          outdoor_degf_err_thres := some 5 } = false
    ∧ fault_condition_three_
        { mat := some (5 + max ((72 : ℚ) + 2) (55 + 5) + 1), rat := some 72, oat := some 55
          mix_degf_err_thres := some 5, return_degf_err_thres := some 2
          outdoor_degf_err_thres := some 5 } = true
    ∧ fault_condition_two_
        { mat := some (min ((72 : ℚ) - 2) (45 - 5) - 5), rat := some 72, oat := some 45
          mix_degf_err_thres := some 5, return_degf_err_thres := some 2
          outdoor_degf_err_thres := some 5 } = false
    ∧ fault_condition_two_
        { mat := some (min ((72 : ℚ) - 2) (45 - 5) - 5 - 1), rat := some 72, oat := some 45
          mix_degf_err_thres := some 5, return_degf_err_thres := some 2
          outdoor_degf_err_thres := some 5 } = true := by
  have h := fc23_strict_inequality_boundary 72 45 5 2 5 1 (by norm_num)
  have h3 := fc23_strict_inequality_boundary 72 55 5 2 5 1 (by norm_num)
  exact ⟨h3.1, h3.2.1, h.2.2.1, h.2.2.2⟩

/-- C6: with thresholds mix=5, return=2, outdoor=5, `fault_condition_three_`
is true on scenario A (mat=85, rat=72, oat=55) and false on scenario B
(mat=60, rat=72, oat=45). -/
theorem fc3_scenarios_a_b :
    fault_condition_three_ scenarioA = true ∧ fault_condition_three_ scenarioB = false := by
  constructor <;>
  · simp only [fault_condition_three_, scenarioA, scenarioB, fadd_some, fsub_some,
      fmax_some, fgt_some, decide_eq_true_eq, decide_eq_false_iff_not, not_lt,
      max_lt_iff, le_max_iff]
    norm_num

/-- C7: a NaN in any referenced temperature column makes both predicates
evaluate to false — NaN never produces a true flag and no error is raised. -/
theorem fc23_nan_not_flagged (r : Fc23Row)
    (h : r.mat = none ∨ r.rat = none ∨ r.oat = none) :
    fault_condition_two_ r = false ∧ fault_condition_three_ r = false := by
  obtain ⟨mat, rat, oat, mx, rt, ot⟩ := r
  rcases h with h | h | h <;> subst h <;>
    constructor <;> simp [fault_condition_two_, fault_condition_three_]

/-- C7 witness: a row with NaN mixed-air temperature flags neither rule. -/
theorem fc23_nan_not_flagged_witness :
    fault_condition_two_
        { mat := none, rat := some 72, oat := some 55, mix_degf_err_thres := some 5
          return_degf_err_thres := some 2, outdoor_degf_err_thres := some 5 } = false
    ∧ fault_condition_three_
        { mat := none, rat := some 72, oat := some 55, mix_degf_err_thres := some 5
          return_degf_err_thres := some 2, outdoor_degf_err_thres := some 5 } = false :=
  fc23_nan_not_flagged _ (Or.inl rfl)

/-- C10: on finite temperature values with non-negative thresholds the FC2
and FC3 predicates are never both true. -/
theorem fc2_fc3_mutually_exclusive (mat rat oat mx rt ot : ℚ)
    (hmx : 0 ≤ mx) (hrt : 0 ≤ rt) (hot : 0 ≤ ot) :
    ¬(fault_condition_two_
        { mat := some mat, rat := some rat, oat := some oat, mix_degf_err_thres := some mx
          return_degf_err_thres := some rt, outdoor_degf_err_thres := some ot } = true
      ∧ fault_condition_three_
        { mat := some mat, rat := some rat, oat := some oat, mix_degf_err_thres := some mx
          return_degf_err_thres := some rt, outdoor_degf_err_thres := some ot } = true) := by
  rintro ⟨h2, h3⟩
  simp only [fault_condition_two_, fault_condition_three_, fadd_some, fsub_some,
    fmin_some, fmax_some, flt_some, fgt_some, decide_eq_true_eq] at h2 h3
  have l2 : mat + mx < rat - rt := lt_of_lt_of_le h2 (min_le_left _ _)
  have l3 : rat + rt < mat - mx := lt_of_le_of_lt (le_max_left _ _) h3
  linarith

/-- C10 witness: instantiation at mat=70, rat=72, oat=55, thresholds 5, 2, 5. -/
theorem fc2_fc3_mutually_exclusive_witness :
    ¬(fault_condition_two_
        { mat := some 70, rat := some 72, oat := some 55, mix_degf_err_thres := some 5
          return_degf_err_thres := some 2, outdoor_degf_err_thres := some 5 } = true
      ∧ fault_condition_three_
        { mat := some 70, rat := some 72, oat := some 55, mix_degf_err_thres := some 5
          return_degf_err_thres := some 2, outdoor_degf_err_thres := some 5 } = true) :=
  fc2_fc3_mutually_exclusive 70 72 55 5 2 5 (by norm_num) (by norm_num) (by norm_num)

/-!
### Theorems about the operating-mode classifier
-/

lemma bool_toNat_le_one (b : Bool) : b.toNat ≤ 1 := by cases b <;> decide

lemma not_both_true {x y : Bool} (h : ¬(x = true ∧ y = true)) (hx : x = true) :
    y = false := by
  rcases Bool.eq_false_or_eq_true y with h' | h'
  · exact absurd ⟨hx, h'⟩ h
  · exact h' 

/-- No two of the four mode indicators can hold on the same row: each pair
of gating predicates contains contradictory conditions. -/
lemma modes_pairwise_exclusive (cfg : FC4Config) (r : Row) :
    ¬(heating_mode cfg r = true ∧ econ_only_cooling_mode cfg r = true)
    ∧ ¬(heating_mode cfg r = true ∧ econ_plus_mech_cooling_mode cfg r = true)
    ∧ ¬(heating_mode cfg r = true ∧ mech_cooling_only_mode cfg r = true)
    ∧ ¬(econ_only_cooling_mode cfg r = true ∧ econ_plus_mech_cooling_mode cfg r = true)
    ∧ ¬(econ_only_cooling_mode cfg r = true ∧ mech_cooling_only_mode cfg r = true)
    ∧ ¬(econ_plus_mech_cooling_mode cfg r = true ∧ mech_cooling_only_mode cfg r = true) := by
  refine ⟨?_, ?_, ?_, ?_, ?_, ?_⟩ <;>
    · rintro ⟨hA, hB⟩
      simp only [heating_mode, econ_only_cooling_mode, econ_plus_mech_cooling_mode,
        mech_cooling_only_mode, Bool.and_eq_true, decide_eq_true_eq] at hA hB
      obtain ⟨⟨⟨a1, a2⟩, a3⟩, a4⟩ := hA
      obtain ⟨⟨⟨b1, b2⟩, b3⟩, b4⟩ := hB
      linarith

/-- C3: on every row at most one of the four mode indicators is true, and a
row matching none of the combinations — for example fan speed zero, or
heating and cooling signals both positive — has all four indicators false. -/
theorem operating_mode_mutual_exclusion (cfg : FC4Config) (r : Row) :
    ((heating_mode cfg r).toNat + (econ_only_cooling_mode cfg r).toNat
        + (econ_plus_mech_cooling_mode cfg r).toNat
        + (mech_cooling_only_mode cfg r).toNat ≤ 1)
    ∧ (r.supply_vfd_speed = 0 →
        heating_mode cfg r = false ∧ econ_only_cooling_mode cfg r = false
          ∧ econ_plus_mech_cooling_mode cfg r = false
          ∧ mech_cooling_only_mode cfg r = false)
    ∧ (0 < r.heating_sig → 0 < r.cooling_sig →
        heating_mode cfg r = false ∧ econ_only_cooling_mode cfg r = false
          ∧ econ_plus_mech_cooling_mode cfg r = false
          ∧ mech_cooling_only_mode cfg r = false) := by
  obtain ⟨p1, p2, p3, p4, p5, p6⟩ := modes_pairwise_exclusive cfg r
  refine ⟨?_, ?_, ?_⟩
  · rcases Bool.eq_false_or_eq_true (heating_mode cfg r) with hA | hA
    · have hB := not_both_true p1 hA
      have hC := not_both_true p2 hA
      have hD := not_both_true p3 hA
      simp [hA, hB, hC, hD]
    · rcases Bool.eq_false_or_eq_true (econ_only_cooling_mode cfg r) with hB | hB
      · have hC := not_both_true p4 hB
        have hD := not_both_true p5 hB
        simp [hA, hB, hC, hD]
      · rcases Bool.eq_false_or_eq_true (econ_plus_mech_cooling_mode cfg r) with hC | hC
        · have hD := not_both_true p6 hC
          simp [hA, hB, hC, hD]
        · simp only [hA, hB, hC, Bool.toNat_false, Nat.zero_add]
          exact bool_toNat_le_one _
  · intro hfan
    refine ⟨?_, ?_, ?_, ?_⟩ <;>
      simp [heating_mode, econ_only_cooling_mode, econ_plus_mech_cooling_mode,
        mech_cooling_only_mode, hfan]
  · intro hh hc
    have hh' : r.heating_sig ≠ 0 := ne_of_gt hh
    have hc' : r.cooling_sig ≠ 0 := ne_of_gt hc
    refine ⟨?_, ?_, ?_, ?_⟩ <;>
      simp [heating_mode, econ_only_cooling_mode, econ_plus_mech_cooling_mode,
        mech_cooling_only_mode, hh', hc']

/-- C3 witness: the fan-off row has every indicator false. -/
theorem operating_mode_mutual_exclusion_witness :
    heating_mode cfgA rowFanOff = false ∧ econ_only_cooling_mode cfgA rowFanOff = false
      ∧ econ_plus_mech_cooling_mode cfgA rowFanOff = false
      ∧ mech_cooling_only_mode cfgA rowFanOff = false :=
  (operating_mode_mutual_exclusion cfgA rowFanOff).2.1 (by decide)

/-- C4: a row with heating signal positive, cooling signal zero, fan speed
positive and economizer signal at the configured minimum is classified
heating-only (the other three indicators false); and no indicator is true
on a row whose fan speed is not strictly positive. -/
theorem heating_only_mode_gating (cfg : FC4Config) (r r' : Row)
    (h1 : 0 < r.heating_sig) (h2 : r.cooling_sig = 0)
    (h3 : 0 < r.supply_vfd_speed) (h4 : r.economizer_sig = cfg.ahu_min_oa_dpr)
    (h5 : ¬ 0 < r'.supply_vfd_speed) :
    (heating_mode cfg r = true ∧ econ_only_cooling_mode cfg r = false
      ∧ econ_plus_mech_cooling_mode cfg r = false
      ∧ mech_cooling_only_mode cfg r = false)
    ∧ (heating_mode cfg r' = false ∧ econ_only_cooling_mode cfg r' = false
      ∧ econ_plus_mech_cooling_mode cfg r' = false
      ∧ mech_cooling_only_mode cfg r' = false) := by
  have h1' : r.heating_sig ≠ 0 := ne_of_gt h1
  have h2' : ¬ (0 : ℚ) < r.cooling_sig := by rw [h2]; exact lt_irrefl 0
  constructor <;>
    refine ⟨?_, ?_, ?_, ?_⟩ <;>
      simp_all [heating_mode, econ_only_cooling_mode,
        econ_plus_mech_cooling_mode, mech_cooling_only_mode]

/-- C4 witness: the heating row is classified heating-only and the fan-off
row matches no mode. -/
theorem heating_only_mode_gating_witness :
    (heating_mode cfgA (rowHeat 0) = true
      ∧ econ_only_cooling_mode cfgA (rowHeat 0) = false
      ∧ econ_plus_mech_cooling_mode cfgA (rowHeat 0) = false
      ∧ mech_cooling_only_mode cfgA (rowHeat 0) = false)
    ∧ (heating_mode cfgA rowFanOff = false
      ∧ econ_only_cooling_mode cfgA rowFanOff = false
      ∧ econ_plus_mech_cooling_mode cfgA rowFanOff = false
      ∧ mech_cooling_only_mode cfgA rowFanOff = false) :=
  heating_only_mode_gating cfgA (rowHeat 0) rowFanOff (by decide) (by decide)
    (by decide) (by decide) (by decide)

/-!
### Theorems about the hunting counter and `FaultConditionFour.apply`
-/

/-- `fc4_flag` is assigned after the count columns, so it is not itself one
of the columns scanned by `.any(axis=1)`. -/
lemma allCounts_setFlag (cfg : FC4Config) (hr : HourlyRow) :
    allCounts (setFlag cfg hr) = allCounts hr := rfl

lemma setFlag_fc4_flag_true {cfg : FC4Config} {hr : HourlyRow}
    (hb : (allCounts hr).any (fun c => decide (cfg.delta_os_max < (c : ℚ))) = true) :
    (setFlag cfg hr).fc4_flag = 1 := by simp [setFlag, hb]

lemma setFlag_fc4_flag_false {cfg : FC4Config} {hr : HourlyRow}
    (hb : (allCounts hr).any (fun c => decide (cfg.delta_os_max < (c : ℚ))) = false) :
    (setFlag cfg hr).fc4_flag = 0 := by simp [setFlag, hb]

/-- Inversion of a successful `apply`: the two returned tables. -/
lemma apply_ok_inv {cfg : FC4Config} {df : DataFrame} {m : List RowM}
    {hly : List HourlyRow}
    (h : FaultConditionFour.apply cfg df = Except.ok (m, hly)) :
    m = df.rows.map (addModes cfg) ∧ hly = applyHourly cfg df := by
  unfold FaultConditionFour.apply at h
  repeat' split at h
  all_goals simp_all

/-- The recursive in-bucket edge count coincides with the positional
pair-with-predecessor formulation. -/
lemma countEdgesFrom_eq_zip (xs : List ℤ) : ∀ prev : Option ℤ,
    countEdgesFrom prev xs
      = ((xs.zip (prev :: xs.map some)).filter
          (fun p => decide (p.1 = 1) && !(p.2 == some 1))).length := by
  induction xs with
  | nil => intro prev; rfl
  | cons x xs ih =>
    intro prev
    show (if x = 1 ∧ prev ≠ some 1 then 1 else 0) + countEdgesFrom (some x) xs = _
    rw [List.map_cons, List.zip_cons_cons, List.filter_cons]
    by_cases h1 : x = 1 <;> by_cases h2 : prev = some 1 <;>
      simp [h1, h2, ih, Nat.add_comm]

lemma countEdges_eq_bucketEdgeSpec (xs : List ℤ) : countEdges xs = bucketEdgeSpec xs :=
  countEdgesFrom_eq_zip xs none

/-- The hourly row produced for bucket `h0` of the resampled output. -/
lemma mem_applyHourly {cfg : FC4Config} {df : DataFrame} {hr : HourlyRow}
    (h : hr ∈ applyHourly cfg df) :
    ∃ h0 ∈ hoursOf df.rows, hr = setFlag cfg (hourlyCounts cfg df h0) := by
  obtain ⟨h0, hmem, heq⟩ := List.mem_map.mp h
  exact ⟨h0, hmem, heq.symm⟩

/-- C1 (amended): an hour is flagged exactly when SOME transition-count
column of the integer-cast table — the four signal columns and any extra
column included, not only the four mode columns — strictly exceeds
`delta_os_max`; the flag column is 0/1-valued. -/
theorem fc4_flag_iff_some_column_count_exceeds (cfg : FC4Config) (df : DataFrame)
    (hr : HourlyRow) (h : hr ∈ applyHourly cfg df) :
    (hr.fc4_flag = 1 ↔ ∃ c ∈ allCounts hr, cfg.delta_os_max < (c : ℚ))
    ∧ (hr.fc4_flag = 1 ∨ hr.fc4_flag = 0) := by
  obtain ⟨h0, -, rfl⟩ := mem_applyHourly h
  rcases Bool.eq_false_or_eq_true
      ((allCounts (hourlyCounts cfg df h0)).any
        (fun c => decide (cfg.delta_os_max < (c : ℚ)))) with hb | hb
  · rw [allCounts_setFlag, setFlag_fc4_flag_true hb]
    refine ⟨iff_of_true rfl ?_, Or.inl rfl⟩
    obtain ⟨c, hc, hcp⟩ := List.any_eq_true.mp hb
    exact ⟨c, hc, of_decide_eq_true hcp⟩
  · rw [allCounts_setFlag, setFlag_fc4_flag_false hb]
    refine ⟨iff_of_false (by decide) ?_, Or.inr rfl⟩
    rintro ⟨c, hc, hcp⟩
    have := List.any_eq_false.mp hb c hc
    exact this (decide_eq_true hcp)

/-- The hourly row the counter produces for `dfPulse`: the raw
`heating_sig` column alone contributes 3 transitions. -/
def hrPulse : HourlyRow :=
  { hour := 0, economizer_sig_count := 0, heating_sig_count := 3
    cooling_sig_count := 0, supply_vfd_speed_count := 0, extras_counts := []
    heating_mode_count := 0, econ_only_cooling_mode_count := 0
    econ_plus_mech_cooling_mode_count := 0, mech_cooling_only_mode_count := 0
    fc4_flag := 1 }

/-- C1 counterexample: on `dfPulse` (fan off all hour, so every mode
indicator is false and all four mode counts are 0) the hour is still
flagged, because the raw `heating_sig` column alternates 1,0,1,0,1,0 and
its transition count 3 exceeds `delta_os_max = 2`.  The maximum count
across the four mode columns is 0, which does not exceed 2, so the claim
that only the mode columns matter is false. -/
theorem fc4_flag_counts_nonmode_columns_cex :
    FaultConditionFour.apply cfgA dfPulse
      = Except.ok (dfPulse.rows.map (addModes cfgA), [hrPulse])
    ∧ hrPulse.fc4_flag = 1
    ∧ max (max hrPulse.heating_mode_count hrPulse.econ_only_cooling_mode_count)
        (max hrPulse.econ_plus_mech_cooling_mode_count
          hrPulse.mech_cooling_only_mode_count) = 0
    ∧ ¬(cfgA.delta_os_max < ((0 : ℕ) : ℚ)) :=
  ⟨rfl, rfl, rfl, by decide⟩

/-- C1 witness: the amended theorem applied to `dfPulse` and its hourly row. -/
theorem fc4_flag_iff_some_column_count_exceeds_witness :
    (hrPulse.fc4_flag = 1 ↔ ∃ c ∈ allCounts hrPulse, cfgA.delta_os_max < (c : ℚ))
    ∧ (hrPulse.fc4_flag = 1 ∨ hrPulse.fc4_flag = 0) :=
  fc4_flag_iff_some_column_count_exceeds cfgA dfPulse hrPulse (by decide)

/-- C2 (amended): each per-mode count of an hourly row equals the number of
in-bucket rising edges of that mode column: rows whose value is 1 and whose
immediately preceding row WITHIN THE BUCKET is not 1, the first row of the
bucket counting whenever its value is 1 (`shift()` restarts at each
resample bucket, so the last row of the previous hour is never consulted). -/
theorem fc4_mode_counts_in_bucket_rising_edges (cfg : FC4Config) (df : DataFrame)
    (hr : HourlyRow) (h : hr ∈ applyHourly cfg df) :
    hr.heating_mode_count
        = bucketEdgeSpec ((bucket df.rows hr.hour).map
            (fun r => boolInt (heating_mode cfg r)))
    ∧ hr.econ_only_cooling_mode_count
        = bucketEdgeSpec ((bucket df.rows hr.hour).map
            (fun r => boolInt (econ_only_cooling_mode cfg r)))
    ∧ hr.econ_plus_mech_cooling_mode_count
        = bucketEdgeSpec ((bucket df.rows hr.hour).map
            (fun r => boolInt (econ_plus_mech_cooling_mode cfg r)))
    ∧ hr.mech_cooling_only_mode_count
        = bucketEdgeSpec ((bucket df.rows hr.hour).map
            (fun r => boolInt (mech_cooling_only_mode cfg r))) := by
  obtain ⟨h0, -, rfl⟩ := mem_applyHourly h
  refine ⟨?_, ?_, ?_, ?_⟩ <;>
    simp [setFlag, hourlyCounts, countEdges_eq_bucketEdgeSpec]

/-- C2 counterexample: in `dfStay` the unit is in heating mode in the last
row of hour 0 and still in heating mode in the first row of hour 1.  The
claim's count for hour 1 — rising edges with respect to the immediately
preceding row of the original, unresampled series — is 0, but the code
counts 1 for hour 1 because `shift()` runs inside each hourly bucket. -/
theorem fc4_cross_hour_shift_cex :
    (applyHourly cfgA dfStay).map HourlyRow.heating_mode_count = [1, 1]
    ∧ specSeriesEdgeCount
        (dfStay.rows.map (fun r => (r.hour, boolInt (heating_mode cfgA r)))) 1 = 0 :=
  ⟨rfl, rfl⟩

/-- The hourly row the counter produces for the alternating table `dfAlt`:
three entries into heating and three into economizer-only within the hour. -/
def hrAlt : HourlyRow :=
  { hour := 0, economizer_sig_count := 0, heating_sig_count := 0
    cooling_sig_count := 0, supply_vfd_speed_count := 0, extras_counts := []
    heating_mode_count := 3, econ_only_cooling_mode_count := 3
    econ_plus_mech_cooling_mode_count := 0, mech_cooling_only_mode_count := 0
    fc4_flag := 1 }

/-- C2 witness: the amended theorem applied to the alternating hour `dfAlt`,
whose counts (3 alternations into each of the two active modes) exceed
`delta_os_max = 2`, so the hour is flagged. -/
theorem fc4_mode_counts_in_bucket_rising_edges_witness :
    (hrAlt.heating_mode_count
        = bucketEdgeSpec ((bucket dfAlt.rows hrAlt.hour).map
            (fun r => boolInt (heating_mode cfgA r)))
    ∧ hrAlt.econ_only_cooling_mode_count
        = bucketEdgeSpec ((bucket dfAlt.rows hrAlt.hour).map
            (fun r => boolInt (econ_only_cooling_mode cfgA r)))
    ∧ hrAlt.econ_plus_mech_cooling_mode_count
        = bucketEdgeSpec ((bucket dfAlt.rows hrAlt.hour).map
            (fun r => boolInt (econ_plus_mech_cooling_mode cfgA r)))
    ∧ hrAlt.mech_cooling_only_mode_count
        = bucketEdgeSpec ((bucket dfAlt.rows hrAlt.hour).map
            (fun r => boolInt (mech_cooling_only_mode cfgA r)))) :=
  fc4_mode_counts_in_bucket_rising_edges cfgA dfAlt hrAlt (by decide)

/-- C8: the analog-percentage validation of the economizer, heating,
cooling and fan-speed columns runs before any mode or flag computation;
when it rejects any of the four columns, `apply` aborts with the validator
error and returns no table at all (no partial result, nothing appended). -/
theorem fc4_validator_aborts_before_modes (cfg : FC4Config) (df : DataFrame)
    (h : analogOk (df.rows.map Row.economizer_sig) = false
      ∨ analogOk (df.rows.map Row.heating_sig) = false
      ∨ analogOk (df.rows.map Row.cooling_sig) = false
      ∨ analogOk (df.rows.map Row.supply_vfd_speed) = false) :
    FaultConditionFour.apply cfg df = Except.error SignalError.invalidSignalRange := by
  unfold FaultConditionFour.apply check_analog_pct
  rcases h with h | h | h | h <;>
    rcases Bool.eq_false_or_eq_true (analogOk (df.rows.map Row.economizer_sig))
      with e1 | e1 <;>
    rcases Bool.eq_false_or_eq_true (analogOk (df.rows.map Row.heating_sig))
      with e2 | e2 <;>
    rcases Bool.eq_false_or_eq_true (analogOk (df.rows.map Row.cooling_sig))
      with e3 | e3 <;>
    rcases Bool.eq_false_or_eq_true (analogOk (df.rows.map Row.supply_vfd_speed))
      with e4 | e4 <;>
    simp_all

/-- C8 witness: a table whose heating signal holds 1.5 is rejected before
anything is computed. -/
theorem fc4_validator_aborts_before_modes_witness :
    FaultConditionFour.apply cfgA dfBadHeat
      = Except.error SignalError.invalidSignalRange :=
  fc4_validator_aborts_before_modes cfgA dfBadHeat (Or.inr (Or.inl (by decide)))

/-- C9: a successful `apply` leaves the caller's table with exactly the four
boolean mode columns appended in place — same rows in the same order, with
every pre-existing column value and timestamp unchanged — while the result
it returns is the separately built hourly table. -/
theorem fc4_apply_appends_modes_in_place (cfg : FC4Config) (df : DataFrame)
    (m : List RowM) (hly : List HourlyRow)
    (h : FaultConditionFour.apply cfg df = Except.ok (m, hly)) :
    m.map RowM.base = df.rows
    ∧ m.map RowM.heating_mode = df.rows.map (heating_mode cfg)
    ∧ m.map RowM.econ_only_cooling_mode = df.rows.map (econ_only_cooling_mode cfg)
    ∧ m.map RowM.econ_plus_mech_cooling_mode
        = df.rows.map (econ_plus_mech_cooling_mode cfg)
    ∧ m.map RowM.mech_cooling_only_mode = df.rows.map (mech_cooling_only_mode cfg)
    ∧ hly = applyHourly cfg df := by
  obtain ⟨rfl, rfl⟩ := apply_ok_inv h
  refine ⟨?_, ?_, ?_, ?_, ?_, rfl⟩
  · rw [List.map_map]
    have hb : RowM.base ∘ addModes cfg = id := funext fun r => rfl
    rw [hb, List.map_id]
  all_goals simp [addModes, List.map_map, Function.comp]

/-- C9 witness: on `dfAlt` the mutated table is the original rows with the
classifier's four booleans appended, and the returned table is the hourly one. -/
theorem fc4_apply_appends_modes_in_place_witness :
    (dfAlt.rows.map (addModes cfgA)).map RowM.base = dfAlt.rows
    ∧ (dfAlt.rows.map (addModes cfgA)).map RowM.heating_mode
        = dfAlt.rows.map (heating_mode cfgA)
    ∧ (dfAlt.rows.map (addModes cfgA)).map RowM.econ_only_cooling_mode
        = dfAlt.rows.map (econ_only_cooling_mode cfgA)
    ∧ (dfAlt.rows.map (addModes cfgA)).map RowM.econ_plus_mech_cooling_mode
        = dfAlt.rows.map (econ_plus_mech_cooling_mode cfgA)
    ∧ (dfAlt.rows.map (addModes cfgA)).map RowM.mech_cooling_only_mode
        = dfAlt.rows.map (mech_cooling_only_mode cfgA)
    ∧ applyHourly cfgA dfAlt = applyHourly cfgA dfAlt :=
  fc4_apply_appends_modes_in_place cfgA dfAlt (dfAlt.rows.map (addModes cfgA))
    (applyHourly cfgA dfAlt) rfl

end AhuFdd
